import Mathlib

/-!
# Verification of the order-fulfillment automation

A shallow embedding of the reconciliation core of the fulfillment automation:
the outstanding-line calculator, the Printify line-item builders, the
fulfillment-creation protocol of the Vendure client (capability probe,
invalid-handler retry), the two webhook handlers (the `src` one and the `api`
one), and their HMAC-SHA256 signature checks.  Remote calls (GraphQL mutations,
order lookup, the Printify REST call) are modelled as oracles passed in as
functions, and every function that issues mutations also returns the ordered
list of mutation requests it made, so that ordering and counting properties
can be stated.  JavaScript number fields are modelled as `Int`, JS truthiness
of optional strings is made explicit, and the HMAC-SHA256 primitive is
implemented concretely over byte lists (`Nat < 256`).
-/

set_option maxRecDepth 100000

namespace TonyStore

/-- JS `a || d` for an optional string: the fallback fires on `undefined`,
`null` and the empty string (all falsy). -/
def jsOr (a : Option String) (d : String) : String :=
  match a with
  | some s => if s = "" then d else s
  | none => d

/-- JS truthiness of an optional string (`undefined`, `null` and `""` are falsy). -/
def jsTruthy (a : Option String) : Bool := (a.getD "") != ""

def isPrefixOfChars : List Char → List Char → Bool
  | [], _ => true
  | _ :: _, [] => false
  | a :: as, b :: bs => a == b && isPrefixOfChars as bs

def includesChars (hay pat : List Char) : Bool :=
  match hay with
  | [] => pat.isEmpty
  | _ :: rest => isPrefixOfChars pat hay || includesChars rest pat

/-- JS `s.includes(sub)`: substring test. -/
def includesStr (s sub : String) : Bool := includesChars s.toList sub.toList

/-- JS `s.toLowerCase()` on the ASCII strings this system compares. -/
def toLowerStr (s : String) : String := String.mk (s.toList.map Char.toLower)

def wordsGo : List Char → List Char → List String
  | [], acc => if acc.isEmpty then [] else [String.mk acc.reverse]
  | c :: rest, acc =>
    if c.isWhitespace then
      if acc.isEmpty then wordsGo rest [] else String.mk acc.reverse :: wordsGo rest []
    else wordsGo rest (c :: acc)

/-- JS `s.trim().split(/\s+/)` on a string, dropping empty fragments: the list
of whitespace-separated words. -/
def wordsOf (s : String) : List String := wordsGo s.toList []

/-- JS `/pat/i.test(s)` for a pattern without metacharacters: case-insensitive
substring test. -/
def regexTestCI (pat s : String) : Bool := includesStr (toLowerStr s) (toLowerStr pat)

/-! ## Data model (vendure-client.ts) -/

structure ProductVariantRef where
  id : String
  sku : Option String
  name : String
deriving DecidableEq

structure OrderLineSummary where
  id : String
  quantity : Int
  fulfilledQuantity : Int
  productVariant : ProductVariantRef
deriving DecidableEq

structure FulfillmentRecord where
  id : String
  state : String
  trackingCode : Option String
deriving DecidableEq

structure ShippingAddress where
  fullName : Option String
  streetLine1 : Option String
  streetLine2 : Option String
  city : Option String
  province : Option String
  provinceCode : Option String
  postalCode : Option String
  countryCode : Option String
  phoneNumber : Option String
deriving DecidableEq

structure CustomerRef where
  emailAddress : Option String
deriving DecidableEq

structure OrderSummary where
  id : String
  code : String
  state : String
  createdAt : String
  fulfillments : List FulfillmentRecord
  lines : List OrderLineSummary
  shippingAddress : Option ShippingAddress
  customer : Option CustomerRef
deriving DecidableEq

structure OutstandingLine where
  orderLineId : String
  quantity : Int
  sku : Option String
  variantName : String
deriving DecidableEq

/-- The body of `getOutstandingFulfillmentLines`, factored over the line list:
map each line to its outstanding entry (or `null` when nothing is outstanding)
and keep the non-null ones. -/
def outstandingOfLines (lines : List OrderLineSummary) : List OutstandingLine :=
  (lines.map (fun line =>
    let outstanding := line.quantity - line.fulfilledQuantity
    if outstanding ≤ 0 then none
    else some { orderLineId := line.id, quantity := outstanding,
                sku := line.productVariant.sku, variantName := line.productVariant.name })).filterMap id

/-- `getOutstandingFulfillmentLines` from vendure-client.ts. -/
def getOutstandingFulfillmentLines (order : OrderSummary) : List OutstandingLine :=
  outstandingOfLines order.lines

/-! ## HMAC-SHA256 (the `crypto` primitive used by both webhook handlers),
implemented concretely over byte lists, bytes as `Nat < 256`, 32-bit words as
`Nat` with explicit `% 2 ^ 32`. -/

def rotr (n x : Nat) : Nat := ((x >>> n) ||| (x <<< (32 - n))) % 4294967296

def smallSigma0 (x : Nat) : Nat := (rotr 7 x) ^^^ (rotr 18 x) ^^^ (x >>> 3)

def smallSigma1 (x : Nat) : Nat := (rotr 17 x) ^^^ (rotr 19 x) ^^^ (x >>> 10)

def bigSigma0 (x : Nat) : Nat := (rotr 2 x) ^^^ (rotr 13 x) ^^^ (rotr 22 x)

def bigSigma1 (x : Nat) : Nat := (rotr 6 x) ^^^ (rotr 11 x) ^^^ (rotr 25 x)

/-- The 64 SHA-256 round constants of FIPS 180-4 (decimal). -/
def sha256K : List Nat :=
  [1116352408, 1899447441, 3049323471, 3921009573, 961987163, 1508970993,
   2453635748, 2870763221, 3624381080, 310598401, 607225278, 1426881987,
   1925078388, 2162078206, 2614888103, 3248222580, 3835390401, 4022224774,
   264347078, 604807628, 770255983, 1249150122, 1555081692, 1996064986,
   2554220882, 2821834349, 2952996808, 3210313671, 3336571891, 3584528711,
   113926993, 338241895, 666307205, 773529912, 1294757372, 1396182291,
   1695183700, 1986661051, 2177026350, 2456956037, 2730485921, 2820302411,
   3259730800, 3345764771, 3516065817, 3600352804, 4094571909, 275423344,
   430227734, 506948616, 659060556, 883997877, 958139571, 1322822218,
   1537002063, 1747873779, 1955562222, 2024104815, 2227730452, 2361852424,
   2428436474, 2756734187, 3204031479, 3329325298]

structure Sha256State where
  a : Nat
  b : Nat
  c : Nat
  d : Nat
  e : Nat
  f : Nat
  g : Nat
  h : Nat
deriving DecidableEq

/-- The eight SHA-256 initial hash values (decimal). -/
def sha256Init : Sha256State :=
  ⟨1779033703, 3144134277, 1013904242, 2773480762,
   1359893119, 2600822924, 528734635, 1541459225⟩

/-- Big-endian 32-bit words from a byte list (4 bytes per word). -/
def bytesToWords : List Nat → List Nat
  | b0 :: b1 :: b2 :: b3 :: rest => ((b0 <<< 24) + (b1 <<< 16) + (b2 <<< 8) + b3) :: bytesToWords rest
  | _ => []

/-- Extend the 16 block words to the 64-entry message schedule. -/
def extendSchedule (w : Array Nat) : Array Nat :=
  (List.range 48).foldl
    (fun w i =>
      let t := (smallSigma1 (w.getD (i + 14) 0) + w.getD (i + 9) 0 +
                smallSigma0 (w.getD (i + 1) 0) + w.getD i 0) % 4294967296
      w.push t)
    w

def sha256Round (wi ki : Nat) (s : Sha256State) : Sha256State :=
  let t1 := (s.h + bigSigma1 s.e + ((s.e &&& s.f) ^^^ ((s.e ^^^ 4294967295) &&& s.g)) + ki + wi) % 4294967296
  let t2 := (bigSigma0 s.a + ((s.a &&& s.b) ^^^ (s.a &&& s.c) ^^^ (s.b &&& s.c))) % 4294967296
  ⟨(t1 + t2) % 4294967296, s.a, s.b, s.c, (s.d + t1) % 4294967296, s.e, s.f, s.g⟩

def sha256Compress (s : Sha256State) (block : List Nat) : Sha256State :=
  let w := extendSchedule (Array.mk (bytesToWords block))
  let t := (List.range 64).foldl (fun st i => sha256Round (w.getD i 0) (sha256K.getD i 0) st) s
  ⟨(s.a + t.a) % 4294967296, (s.b + t.b) % 4294967296, (s.c + t.c) % 4294967296,
   (s.d + t.d) % 4294967296, (s.e + t.e) % 4294967296, (s.f + t.f) % 4294967296,
   (s.g + t.g) % 4294967296, (s.h + t.h) % 4294967296⟩

/-- SHA-256 padding: `0x80`, zeros up to 56 mod 64, then the 64-bit big-endian
bit length. -/
def sha256Pad (msg : List Nat) : List Nat :=
  let bitLen := msg.length * 8
  let padZeros := (119 - msg.length % 64) % 64
  msg ++ 0x80 :: List.replicate padZeros 0 ++
    (List.range 8).map (fun i => (bitLen >>> ((7 - i) * 8)) % 256)

def chunks64Go : Nat → List Nat → List (List Nat)
  | _, [] => []
  | 0, _ => []
  | fuel + 1, l => l.take 64 :: chunks64Go fuel (l.drop 64)

/-- Split a byte list into 64-byte blocks (structural fuel keeps the definition
kernel-reducible; the fuel `l.length` always suffices). -/
def chunks64 (l : List Nat) : List (List Nat) := chunks64Go l.length l

def wordBytes (w : Nat) : List Nat :=
  [(w >>> 24) % 256, (w >>> 16) % 256, (w >>> 8) % 256, w % 256]

def sha256StateBytes (s : Sha256State) : List Nat :=
  wordBytes s.a ++ wordBytes s.b ++ wordBytes s.c ++ wordBytes s.d ++
  wordBytes s.e ++ wordBytes s.f ++ wordBytes s.g ++ wordBytes s.h

/-- SHA-256 of a byte list. -/
def sha256 (msg : List Nat) : List Nat :=
  sha256StateBytes ((chunks64 (sha256Pad msg)).foldl sha256Compress sha256Init)

/-- HMAC-SHA256 (RFC 2104) over byte lists. -/
def hmacSha256 (key msg : List Nat) : List Nat :=
  let k0 := if 64 < key.length then sha256 key else key
  let kpad := k0 ++ List.replicate (64 - k0.length) 0
  let ipad := kpad.map (fun b => b ^^^ 0x36)
  let opad := kpad.map (fun b => b ^^^ 0x5c)
  sha256 (opad ++ sha256 (ipad ++ msg))

def hexDigitChar (n : Nat) : Char :=
  if n < 10 then Char.ofNat (48 + n) else Char.ofNat (87 + n)

/-- Lowercase hex rendering of a byte list (`digest('hex')`). -/
def bytesToHex (bs : List Nat) : String :=
  String.mk (bs.foldr (fun b acc => hexDigitChar (b / 16) :: hexDigitChar (b % 16) :: acc) [])

/-- Bytes of a string under the ASCII reading of its characters (the secrets and
bodies this system signs are ASCII, where this agrees with Node's UTF-8
`Buffer`). -/
def strBytes (s : String) : List Nat := s.toList.map Char.toNat

/-- `crypto.createHmac(\x27sha256\x27, secret).update(body).digest(\x27hex\x27)`. -/
def hmacSha256Hex (secret body : String) : String :=
  bytesToHex (hmacSha256 (strBytes secret) (strBytes body))

/-- One hex digit back to its value; `none` on a non-hex character.  Hex decoding
accepts both cases, as Node's `Buffer.from(s, \x27hex\x27)` does. -/
def hexVal (c : Char) : Option Nat :=
  if '0' ≤ c ∧ c ≤ '9' then some (c.toNat - 48)
  else if 'a' ≤ c ∧ c ≤ 'f' then some (c.toNat - 87)
  else if 'A' ≤ c ∧ c ≤ 'F' then some (c.toNat - 55)
  else none

/-- `Buffer.from(s, \x27hex\x27)`: decode hex pairs, stopping at the first invalid
or incomplete pair (Node's lenient behaviour). -/
def hexDecodeChars : List Char → List Nat
  | c1 :: c2 :: rest =>
    match hexVal c1, hexVal c2 with
    | some hi, some lo => (16 * hi + lo) :: hexDecodeChars rest
    | _, _ => []
  | _ => []

def hexDecode (s : String) : List Nat := hexDecodeChars s.toList

/-- `crypto.timingSafeEqual`: throws a `RangeError` when the buffers differ in
length, otherwise compares contents. -/
def timingSafeEqual (a b : List Nat) : Except String Bool :=
  if a.length = b.length then .ok (a == b)
  else .error "RangeError: Input buffers must have the same byte length"

/-! ## Mutation requests observable on the Vendure Admin API -/

/-- A mutation request sent to the Vendure Admin API — the observable side
effects the webhook handlers can ask for.  `createFulfillmentRequest` is
included so that "never creates a fulfillment" is a statement about traces,
not about types. -/
inductive VendureMutation where
  | transitionFulfillmentToState (fulfillmentId : String) (state : String)
  | updateFulfillmentTracking (fulfillmentId : String) (trackingCode : Option String)
      (method : Option String)
  | createFulfillmentRequest (orderId : String)
deriving DecidableEq

/-- The fulfillment a mutation addresses, when it addresses one. -/
def mutationFulfillmentId : VendureMutation → Option String
  | .transitionFulfillmentToState fid _ => some fid
  | .updateFulfillmentTracking fid _ _ => some fid
  | .createFulfillmentRequest _ => none

/-! ## Fulfillment-creation protocol (`VendureClient.createFulfillment`) -/

structure CreateFulfillmentInput where
  orderId : String
  lines : List (String × Int)
  handlerCode : String
  method : Option String
  trackingCode : Option String
deriving DecidableEq

/-- The GraphQL union returned by the two fulfillment mutations: either a
`Fulfillment` object, or a structured error carrying `__typename`, and the
optional `errorCode`, `message` and `transitionError` fields. -/
inductive FulfillmentUnion where
  | fulfillment (id : String) (state : String) (method : Option String)
  | apiError (typename : String) (errorCode : Option String) (message : Option String)
      (transitionError : Option String)
deriving DecidableEq

inductive CreateFulfillmentResult where
  | success (fulfillmentId : String) (state : String) (method : Option String)
  | failure (message : String)
deriving DecidableEq

/-- The invalid-handler test of `createFulfillment`:
`/INVALID_FULFILLMENT_HANDLER/i.test(code) || /InvalidFulfillmentHandler/i.test(msg)`
on `errorCode ?? ""` and `message ?? ""`. -/
def isInvalidHandlerError (errorCode message : Option String) : Bool :=
  regexTestCI "INVALID_FULFILLMENT_HANDLER" (errorCode.getD "") ||
  regexTestCI "InvalidFulfillmentHandler" (message.getD "")

/-- `[result.message, result.transitionError].filter(Boolean).join(' — ')`,
falling back to the unknown-error message when empty. -/
def joinedErrorMessage (message transitionError : Option String) : String :=
  let joined := String.intercalate " — "
    (([message, transitionError].filterMap id).filter (fun s => s != ""))
  if joined = "" then "Unknown fulfillment error" else joined

/-- How `createFulfillment` turns one `FulfillmentUnion` reply into its result:
a success record for a `Fulfillment`, otherwise the joined error message. -/
def fulfillmentResultOf : FulfillmentUnion → CreateFulfillmentResult
  | .fulfillment id st m => .success id st m
  | .apiError _ _ msg te => .failure (joinedErrorMessage msg te)

structure HandlerArgument where
  name : String
  value : String
deriving DecidableEq

/-- A fulfillment-creation request as issued to the backend: the modern
`createFulfillment` shape (orderId + handler code) or the legacy
`addFulfillmentToOrder` shape (lines + handler object). -/
inductive FulfillmentRequest where
  | createFulfillment (orderId : String) (lines : List (String × Int)) (handlerCode : String)
      (method : Option String) (trackingCode : Option String)
  | addFulfillmentToOrder (lines : List (String × Int)) (handlerCode : String)
      (arguments : List HandlerArgument)
deriving DecidableEq

/-- Replace only the handler code of a request, keeping every other field. -/
def withHandlerCode : FulfillmentRequest → String → FulfillmentRequest
  | .createFulfillment oid lines _ m t, h => .createFulfillment oid lines h m t
  | .addFulfillmentToOrder lines _ args, h => .addFulfillmentToOrder lines h args

/-- The handler-argument list built for the legacy shape: `method` and
`trackingCode` become arguments when truthy. -/
def legacyHandlerArguments (input : CreateFulfillmentInput) : List HandlerArgument :=
  (if jsTruthy input.method then [⟨"method", input.method.getD ""⟩] else []) ++
  (if jsTruthy input.trackingCode then [⟨"trackingCode", input.trackingCode.getD ""⟩] else [])

/-- `VendureClient.supportsCreateFulfillment`, applied to the mutation field
names the introspection probe returned. -/
def supportsCreateFulfillment (mutationNames : List String) : Bool :=
  mutationNames.contains "createFulfillment" || mutationNames.contains "addFulfillmentToOrder"

/-- `VendureClient.createFulfillment`.  `mutationNames` is what the
introspection probe returned; `respond n` is the backend's reply to the `n`-th
mutation call of this invocation.  Returns the result together with the ordered
list of mutation requests issued; `.error` models a thrown exception. -/
def createFulfillment (mutationNames : List String) (respond : Nat → FulfillmentUnion)
    (input : CreateFulfillmentInput) :
    Except String (CreateFulfillmentResult × List FulfillmentRequest) :=
  if mutationNames.contains "createFulfillment" then
    let req1 : FulfillmentRequest :=
      .createFulfillment input.orderId input.lines input.handlerCode input.method input.trackingCode
    match respond 0 with
    | .fulfillment id st m => .ok (.success id st m, [req1])
    | .apiError _ code msg te =>
      if isInvalidHandlerError code msg then
        let req2 : FulfillmentRequest :=
          .createFulfillment input.orderId input.lines "manual-fulfillment" input.method
            input.trackingCode
        .ok (fulfillmentResultOf (respond 1), [req1, req2])
      else
        .ok (.failure (joinedErrorMessage msg te), [req1])
  else if mutationNames.contains "addFulfillmentToOrder" then
    let handlerArgs := legacyHandlerArguments input
    let req1 : FulfillmentRequest := .addFulfillmentToOrder input.lines input.handlerCode handlerArgs
    match respond 0 with
    | .fulfillment id st m => .ok (.success id st m, [req1])
    | .apiError _ code msg te =>
      if isInvalidHandlerError code msg then
        let req2 : FulfillmentRequest :=
          .addFulfillmentToOrder input.lines "manual-fulfillment" handlerArgs
        .ok (fulfillmentResultOf (respond 1), [req1, req2])
      else
        .ok (.failure (joinedErrorMessage msg te), [req1])
  else
    .error "Vendure Admin API does not support fulfillment mutations"

/-! ## src/fulfill-orders (part_001): Printify request building -/

structure PrintifyMapEntry where
  productId : Int
  variantId : Int
deriving DecidableEq

namespace SrcFulfill

structure PrintifyLineItemInput where
  productId : Int
  variantId : Int
  quantity : Int
deriving DecidableEq

/-- The lookup key of `buildPrintifyLineItems`: `line.sku ?? line.variantName`. -/
def skuKey (line : OutstandingLine) : String := line.sku.getD line.variantName

/-- The loop body of `buildPrintifyLineItems` over the outstanding lines:
look each key up (a falsy key is never looked up), throwing on the first
missing mapping. -/
def buildItemsGo (mapping : List (String × PrintifyMapEntry)) :
    List OutstandingLine → Except String (List PrintifyLineItemInput)
  | [] => .ok []
  | line :: rest =>
    match (if skuKey line != "" then mapping.lookup (skuKey line) else none) with
    | none => .error ("No Printify mapping found for SKU \x27" ++ skuKey line ++ "\x27")
    | some m => do
      let items ← buildItemsGo mapping rest
      .ok (⟨m.productId, m.variantId, line.quantity⟩ :: items)

/-- `buildPrintifyLineItems` from src/fulfill-orders. -/
def buildPrintifyLineItems (order : OrderSummary) (mapping : List (String × PrintifyMapEntry)) :
    Except String (List PrintifyLineItemInput) :=
  buildItemsGo mapping (getOutstandingFulfillmentLines order)

/-- `splitName`: trim, split on whitespace (`wordsOf`); a blank input gives
`{first: "Customer", last: ""}`, otherwise the first word and the rest
re-joined with single spaces. -/
def splitName (fullName : Option String) : String × String :=
  let parts := wordsOf (fullName.getD "")
  if parts.isEmpty then ("Customer", "")
  else (parts.headD "", String.intercalate " " parts.tail)

structure PrintifyAddress where
  first_name : String
  last_name : String
  email : String
  phone : String
  country : String
  region : String
  address1 : String
  address2 : String
  city : String
  zip : String
deriving DecidableEq

/-- The `address_to` record built by `fulfillOrder` (src/fulfill-orders). -/
def addressTo (order : OrderSummary) : PrintifyAddress :=
  let n := splitName (order.shippingAddress.bind (fun a => a.fullName))
  { first_name := n.1
    last_name := n.2
    email := jsOr (order.customer.bind (fun c => c.emailAddress)) "unknown@example.com"
    phone := jsOr (order.shippingAddress.bind (fun a => a.phoneNumber)) ""
    country := jsOr (order.shippingAddress.bind (fun a => a.countryCode)) "US"
    region := jsOr (order.shippingAddress.bind (fun a => a.provinceCode))
      (jsOr (order.shippingAddress.bind (fun a => a.province)) "")
    address1 := jsOr (order.shippingAddress.bind (fun a => a.streetLine1)) ""
    address2 := jsOr (order.shippingAddress.bind (fun a => a.streetLine2)) ""
    city := jsOr (order.shippingAddress.bind (fun a => a.city)) ""
    zip := jsOr (order.shippingAddress.bind (fun a => a.postalCode)) "" }

end SrcFulfill

/-! ## api/fulfill-orders (part_004): Printify request building and the batch loop -/

namespace ApiFulfill

structure LineItemMetadata where
  vendureOrderLineId : String
  sku : String
  variantName : String
deriving DecidableEq

structure PrintifyLineItemInput where
  productId : Int
  variantId : Int
  quantity : Int
  metadata : LineItemMetadata
deriving DecidableEq

/-- The `outstanding.map(...)` loop of the api builder: the callback throws on
the first missing mapping, so the map is an `Except`-valued traversal. -/
def buildItemsGo (productMapping : List (String × PrintifyMapEntry)) :
    List OutstandingLine → Except String (List PrintifyLineItemInput)
  | [] => .ok []
  | line :: rest =>
    match productMapping.lookup (line.sku.getD "") with
    | none =>
      .error ("Missing PRINTIFY_PRODUCT_MAPPING entry for SKU \"" ++ line.sku.getD "" ++ "\"")
    | some m => do
      let items ← buildItemsGo productMapping rest
      .ok (⟨m.productId, m.variantId, line.quantity,
            ⟨line.orderLineId, line.sku.getD "", line.variantName⟩⟩ :: items)

/-- `buildPrintifyLineItems` from api/fulfill-orders: the lookup key is
`line.sku ?? ""` (empty string, not the variant name), and the mapping is
consulted even for the empty key. -/
def buildPrintifyLineItems (outstanding : List OutstandingLine)
    (productMapping : List (String × PrintifyMapEntry)) :
    Except String (List PrintifyLineItemInput) :=
  buildItemsGo productMapping outstanding

/-- `splitFullName`: missing or blank names give `Customer Unknown`; a single
word gets last name `Customer`. -/
def splitFullName (fullName : Option String) : String × String :=
  match fullName with
  | none => ("Customer", "Unknown")
  | some fn =>
    if fn = "" then ("Customer", "Unknown")
    else
      match wordsOf fn with
      | [] => ("Customer", "Unknown")
      | [p] => (p, "Customer")
      | p :: rest => (p, String.intercalate " " rest)

structure PrintifyAddress where
  first_name : String
  last_name : String
  email : String
  phone : Option String
  country : String
  region : Option String
  address1 : String
  address2 : Option String
  city : String
  zip : String
deriving DecidableEq

/-- The `address_to` record built by the api/fulfill-orders handler (nullish
defaults, placeholder email `no-reply@example.com`). -/
def addressTo (order : OrderSummary) (address : ShippingAddress) : PrintifyAddress :=
  let n := splitFullName address.fullName
  { first_name := n.1
    last_name := n.2
    email := (order.customer.bind (fun c => c.emailAddress)).getD "no-reply@example.com"
    phone := address.phoneNumber
    country := address.countryCode.getD "US"
    region := address.province
    address1 := address.streetLine1.getD "Unknown address line 1"
    address2 := address.streetLine2
    city := address.city.getD "Unknown city"
    zip := address.postalCode.getD "00000" }

/-- What processing one order in the batch loop contributed. -/
inductive BatchStep where
  | skipped
  | dryNote (note : String)
  | failed (code : String) (reason : String)
  | fulfilled
deriving DecidableEq

/-- One iteration of the order loop of the api/fulfill-orders handler.
`printifyCreate` (when Printify is enabled) and `vendureCreate` stand for the
remote calls; `.error` is a thrown exception, caught by the loop's `try` and
recorded as a per-order failure. -/
def orderStep (canVendureFulfill dryRun : Bool)
    (printifyCreate : Option (String → Except String String))
    (vendureCreate : String → Except String CreateFulfillmentResult)
    (order : OrderSummary) : BatchStep :=
  let outstanding := getOutstandingFulfillmentLines order
  if outstanding.isEmpty then .skipped
  else if dryRun then
    .dryNote ("Order " ++ order.code ++ " would fulfill " ++ toString outstanding.length ++ " line(s).")
  else
    let vendurePart : BatchStep :=
      if !canVendureFulfill then
        .failed order.code "Vendure Admin API does not support createFulfillment"
      else
        match vendureCreate order.id with
        | .error reason => .failed order.code reason
        | .ok (.success _ _ _) => .fulfilled
        | .ok (.failure msg) => .failed order.code msg
    match printifyCreate with
    | none => vendurePart
    | some pc =>
      match pc order.code with
      | .error reason => .failed order.code reason
      | .ok _ => vendurePart

inductive BatchOutcome where
  | noOrders
  | dryRunNotes (notes : List String)
  | completed (updatedOrders : Nat) (failures : List (String × String))
deriving DecidableEq

/-- The batch portion of the api/fulfill-orders handler after login and order
fetch: process the orders sequentially and aggregate the summary the response
reports.  An unsupported backend surfaces as one failure entry per order, via
`orderStep`. -/
def fulfillOrdersBatch (canVendureFulfill dryRun : Bool)
    (printifyCreate : Option (String → Except String String))
    (vendureCreate : String → Except String CreateFulfillmentResult)
    (orders : List OrderSummary) : BatchOutcome :=
  if orders.isEmpty then .noOrders
  else
    let steps := orders.map (orderStep canVendureFulfill dryRun printifyCreate vendureCreate)
    if dryRun then
      .dryRunNotes (steps.filterMap (fun s => match s with | .dryNote n => some n | _ => none))
    else
      .completed (steps.countP (fun s => match s with | .fulfilled => true | _ => false))
        (steps.filterMap (fun s => match s with | .failed c r => some (c, r) | _ => none))

end ApiFulfill

/-! ## src webhook handler (part_002, `handlePrintifyWebhook`) -/

namespace SrcWebhook

structure PrintifyShipment where
  tracking_number : Option String
  carrier : Option String
deriving DecidableEq

structure PrintifyWebhookEvent where
  type : Option String
  status : Option String
  external_id : Option String
  shipments : List PrintifyShipment
deriving DecidableEq

/-- `mapEventToState`: case-insensitive substring test on `type`, equality on
`status`. -/
def mapEventToState (evt : PrintifyWebhookEvent) : Option String :=
  let t := toLowerStr (evt.type.getD "")
  let s := toLowerStr (evt.status.getD "")
  if includesStr t "delivered" || s == "delivered" then some "Delivered"
  else if includesStr t "shipped" || s == "shipped" then some "Shipped"
  else if includesStr t "fulfilled" || s == "fulfilled" then some "Fulfilled"
  else none

/-- `verifySignature` of the src webhook handler: lenient — a missing secret,
missing/empty body or missing/empty signature all pass; otherwise compare the
hex digest for string equality.  (The source's `catch` branch, which also
passes when the crypto module is unavailable, cannot fail here.) -/
def verifySignature (secret bodyRaw signature : Option String) : Bool :=
  if !(jsTruthy secret) || !(jsTruthy bodyRaw) || !(jsTruthy signature) then true
  else hmacSha256Hex (secret.getD "") (bodyRaw.getD "") == signature.getD ""

structure WebhookResult where
  ok : Bool
  message : Option String
deriving DecidableEq

/-- `handlePrintifyWebhook` after signature verification: map the event, look
the order up (`orderLookup` stands for `vendure.fetchOrderByCode`), pick the
last fulfillment, and request the mutations.  Returns the structured result
together with the mutations requested, in order, on the path where each
mutation succeeds. -/
def handleWebhookEvent (dryRun : Bool) (evt : PrintifyWebhookEvent)
    (orderLookup : String → Option OrderSummary) :
    WebhookResult × List VendureMutation :=
  let targetState := mapEventToState evt
  if !(jsTruthy evt.external_id) then (⟨false, some "Missing external_id"⟩, [])
  else
    match orderLookup (evt.external_id.getD "") with
    | none => (⟨false, some "Order not found"⟩, [])
    | some order =>
      match order.fulfillments.getLast? with
      | none => (⟨false, some "No fulfillment found"⟩, [])
      | some fulfillment =>
        if dryRun then (⟨true, none⟩, [])
        else
          let trackingMutations :=
            if targetState == some "Shipped" then
              match evt.shipments.head? with
              | some shipment =>
                if jsTruthy shipment.tracking_number || jsTruthy shipment.carrier then
                  [VendureMutation.updateFulfillmentTracking fulfillment.id
                    shipment.tracking_number shipment.carrier]
                else []
              | none => []
            else []
          let transitionMutations :=
            match targetState with
            | some st => [VendureMutation.transitionFulfillmentToState fulfillment.id st]
            | none => []
          (⟨true, none⟩, trackingMutations ++ transitionMutations)

/-- The src webhook handler: signature gate (the header falls back to the empty
string), then event processing.  Parsing the raw body into `evt` is JSON
transport glue and is taken as given. -/
def handlePrintifyWebhook (webhookSecret : Option String) (dryRun : Bool)
    (bodyRaw : String) (signatureHeader : Option String)
    (evt : PrintifyWebhookEvent) (orderLookup : String → Option OrderSummary) :
    WebhookResult × List VendureMutation :=
  let signature := jsOr signatureHeader ""
  if !(verifySignature webhookSecret (some bodyRaw) (some signature)) then
    (⟨false, some "Invalid signature"⟩, [])
  else handleWebhookEvent dryRun evt orderLookup

end SrcWebhook

/-! ## api webhook handler (part_005) -/

namespace ApiWebhook

/-- `verifySignature` of the api webhook handler: strict — no secret passes, no
signature fails, otherwise `timingSafeEqual` over the hex-decoded digest and
signature.  `.error` models the `RangeError` thrown on a length mismatch. -/
def verifySignature (rawBody : String) (secret signature : Option String) :
    Except String Bool :=
  if !(jsTruthy secret) then .ok true
  else if !(jsTruthy signature) then .ok false
  else timingSafeEqual (hexDecode (hmacSha256Hex (secret.getD "") rawBody))
    (hexDecode (signature.getD ""))

/-- `Boolean(config.job.secret && bypassSecret && bypassSecret === config.job.secret)`. -/
def hasBypass (jobSecret bypassHeader : Option String) : Bool :=
  jsTruthy jobSecret && jsTruthy bypassHeader && (bypassHeader.getD "" == jobSecret.getD "")

/-- The handler's authentication gate:
`if (!hasBypass && !verifySignature(...)) reject` — a matching bypass secret
short-circuits, skipping signature verification entirely. -/
def authorizeRequest (rawBody : String) (webhookSecret jobSecret : Option String)
    (signatureHeader bypassHeader : Option String) : Except String Bool :=
  if hasBypass jobSecret bypassHeader then .ok true
  else verifySignature rawBody webhookSecret signatureHeader

structure TrackingUpdate where
  carrier : Option String
  code : Option String
deriving DecidableEq

/-- `transitionFulfillments` (api webhook handler): pick the order's last
fulfillment (none → `null`, no mutation), request the state transition, then —
only when a tracking code is present — the tracking update.  Returns the
fulfillment id used and the mutations requested, in order, on the path where
each mutation succeeds. -/
def transitionFulfillments (order : OrderSummary) (targetState : String)
    (tracking : Option TrackingUpdate) : Option String × List VendureMutation :=
  match order.fulfillments.getLast? with
  | none => (none, [])
  | some latest =>
    let transitionMutations := [VendureMutation.transitionFulfillmentToState latest.id targetState]
    let trackingMutations :=
      match tracking with
      | some t =>
        if jsTruthy t.code then
          [VendureMutation.updateFulfillmentTracking latest.id t.code t.carrier]
        else []
      | none => []
    (some latest.id, transitionMutations ++ trackingMutations)

def PRINTIFY_EVENT_MAP : List (String × String) :=
  [("order:sent-to-production", "Fulfilled"),
   ("order:shipment:created", "Shipped"),
   ("order:shipment:delivered", "Delivered")]

structure ApiShipment where
  carrier : Option String
  tracking_number : Option String
deriving DecidableEq

structure WebhookPayload where
  event : String
  external_id : Option String
  shipments : List ApiShipment
deriving DecidableEq

inductive WebhookOutcome where
  | badRequest (error : String)
  | ignored
  | orderNotFound
  | processed (fulfillmentId : Option String) (bypass : Bool)
deriving DecidableEq

/-- The api webhook handler after the method/config/authentication stages:
field validation, exact event-map lookup, order lookup (`orderLookup` stands
for `fetchOrderByCode`), then `transitionFulfillments`.  `processed` is the
200 success response `{success: true, bypass}`. -/
def processWebhook (payload : WebhookPayload)
    (orderLookup : String → Option OrderSummary) (bypass : Bool) :
    WebhookOutcome × List VendureMutation :=
  if payload.event == "" || !(jsTruthy payload.external_id) then
    (.badRequest "Missing event or external_id", [])
  else
    match PRINTIFY_EVENT_MAP.lookup payload.event with
    | none => (.ignored, [])
    | some targetState =>
      match orderLookup (payload.external_id.getD "") with
      | none => (.orderNotFound, [])
      | some order =>
        let tracking := (payload.shipments.head?).map
          (fun s => TrackingUpdate.mk s.carrier s.tracking_number)
        let r := transitionFulfillments order targetState tracking
        (.processed r.1 bypass, r.2)

end ApiWebhook

/-! ## Concrete fixtures used by witnesses and counterexamples -/

def wOrder : OrderSummary :=
  { id := "O-1", code := "ORD123", state := "PaymentSettled", createdAt := "2024-01-01",
    fulfillments := [],
    lines := [⟨"L-1", 3, 1, ⟨"V-1", some "SKU-1", "Variant One"⟩⟩,
              ⟨"L-2", 2, 2, ⟨"V-2", some "SKU-2", "Variant Two"⟩⟩],
    shippingAddress := none, customer := none }

def wOrderB : OrderSummary := { wOrder with id := "O-2", code := "ORD124" }

def wRespondInvalid : Nat → FulfillmentUnion := fun n =>
  if n == 0 then
    .apiError "CreateFulfillmentError" (some "INVALID_FULFILLMENT_HANDLER")
      (some "handler rejected") none
  else .fulfillment "F-2" "Pending" (some "manual")

def wRespondStock : Nat → FulfillmentUnion := fun _ =>
  .apiError "InsufficientStockError" (some "INSUFFICIENT_STOCK_ERROR") (some "out of stock")
    (some "transition blocked")

def wInput : CreateFulfillmentInput :=
  ⟨"O-1", [("L-1", 2)], "printify-fulfillment", some "Printify", none⟩

def wFulfillment : FulfillmentRecord := ⟨"F-1", "Pending", none⟩

def wShipOrder : OrderSummary :=
  { id := "O-1", code := "ORD123", state := "PaymentSettled", createdAt := "",
    fulfillments := [⟨"F-0", "Pending", none⟩, wFulfillment], lines := [],
    shippingAddress := none, customer := none }

def wLookup : String → Option OrderSummary :=
  fun c => if c == "ORD123" then some wShipOrder else none

def wEvtShipped : SrcWebhook.PrintifyWebhookEvent :=
  ⟨some "order:shipped", none, some "ORD123", [⟨some "T1", some "DHL"⟩]⟩

def wShipment : SrcWebhook.PrintifyShipment := ⟨some "T1", some "DHL"⟩

def wPayloadShipped : ApiWebhook.WebhookPayload :=
  ⟨"order:shipment:created", some "ORD123", [⟨some "DHL", some "T1"⟩]⟩

def wNoFulfOrder : OrderSummary :=
  { id := "O-9", code := "ORD9", state := "PaymentSettled", createdAt := "",
    fulfillments := [], lines := [], shippingAddress := none, customer := none }

def wNoFulfLookup : String → Option OrderSummary :=
  fun c => if c == "ORD9" then some wNoFulfOrder else none

def wEvtUnknown : SrcWebhook.PrintifyWebhookEvent := ⟨some "order:created", none, some "ORDX", []⟩

def wEvtUnknownOrd123 : SrcWebhook.PrintifyWebhookEvent :=
  ⟨some "order:created", none, some "ORD123", []⟩

def wEvtNoFulf : SrcWebhook.PrintifyWebhookEvent := ⟨some "order:shipped", none, some "ORD9", []⟩

def wPayloadNoFulf : ApiWebhook.WebhookPayload := ⟨"order:shipment:created", some "ORD9", []⟩

def wLineNoSku : OutstandingLine := ⟨"L-1", 1, none, "X"⟩

def wMapping : List (String × PrintifyMapEntry) := [("X", ⟨7, 8⟩), ("SKU-1", ⟨5, 6⟩)]

def wAddrEmpty : ShippingAddress := ⟨none, none, none, none, none, none, none, none, none⟩

/-! ## Supporting lemmas -/

theorem outstandingOfLines_eq_filter_map (lines : List OrderLineSummary) :
    outstandingOfLines lines =
      (lines.filter (fun l => decide (0 < l.quantity - l.fulfilledQuantity))).map
        (fun l => { orderLineId := l.id, quantity := l.quantity - l.fulfilledQuantity,
                    sku := l.productVariant.sku, variantName := l.productVariant.name }) := by
  induction lines with
  | nil => rfl
  | cons l rest ih =>
    simp only [outstandingOfLines, List.map_cons, List.filterMap_cons, List.filter_cons] at ih ⊢
    by_cases h : l.quantity - l.fulfilledQuantity ≤ 0
    · have hd : decide (0 < l.quantity - l.fulfilledQuantity) = false := by
        simp only [decide_eq_false_iff_not]
        omega
      simp only [if_pos h, hd, Bool.false_eq_true, if_false]
      exact ih
    · have hd : decide (0 < l.quantity - l.fulfilledQuantity) = true := by
        simp only [decide_eq_true_eq]
        omega
      simp only [if_neg h, hd, if_true, List.map_cons, List.filterMap_cons]
      exact congrArg _ ih

theorem outstandingOfLines_sum (lines : List OrderLineSummary)
    (hinv : ∀ l ∈ lines, 0 ≤ l.fulfilledQuantity ∧ l.fulfilledQuantity ≤ l.quantity) :
    ((outstandingOfLines lines).map (fun e => e.quantity)).sum =
      (lines.map (fun l => l.quantity)).sum - (lines.map (fun l => l.fulfilledQuantity)).sum := by
  induction lines with
  | nil => simp [outstandingOfLines]
  | cons l rest ih =>
    have hl := hinv l (by simp)
    have hrest := ih (fun x hx => hinv x (by simp [hx]))
    simp only [outstandingOfLines, List.map_cons, List.filterMap_cons, id_eq] at hrest ⊢
    by_cases h : l.quantity - l.fulfilledQuantity ≤ 0
    · have h0 : l.quantity - l.fulfilledQuantity = 0 := by omega
      simp only [if_pos h, List.map_cons, List.sum_cons, hrest]
      omega
    · simp only [if_neg h, List.map_cons, List.sum_cons, hrest]
      omega

/-! ## Claim theorems -/

/-- C2: for an order whose lines satisfy `0 ≤ fulfilledQuantity ≤ quantity`,
`getOutstandingFulfillmentLines` returns exactly the lines with positive
outstanding quantity, in the original order, each entry carrying the
outstanding (not ordered) quantity; consequently the returned quantities sum
to the total ordered quantity minus the total fulfilled quantity. -/
theorem getOutstandingFulfillmentLines_spec (order : OrderSummary)
    (hinv : ∀ l ∈ order.lines, 0 ≤ l.fulfilledQuantity ∧ l.fulfilledQuantity ≤ l.quantity) :
    getOutstandingFulfillmentLines order =
      (order.lines.filter (fun l => decide (0 < l.quantity - l.fulfilledQuantity))).map
        (fun l => { orderLineId := l.id, quantity := l.quantity - l.fulfilledQuantity,
                    sku := l.productVariant.sku, variantName := l.productVariant.name }) ∧
    ((getOutstandingFulfillmentLines order).map (fun e => e.quantity)).sum =
      (order.lines.map (fun l => l.quantity)).sum -
        (order.lines.map (fun l => l.fulfilledQuantity)).sum :=
  ⟨outstandingOfLines_eq_filter_map order.lines, outstandingOfLines_sum order.lines hinv⟩

/-- Witness for C2 at the specification's own example: lines
`[{quantity: 3, fulfilled: 1}, {quantity: 2, fulfilled: 2}]`. -/
theorem getOutstandingFulfillmentLines_spec_witness :
    getOutstandingFulfillmentLines wOrder =
      (wOrder.lines.filter (fun l => decide (0 < l.quantity - l.fulfilledQuantity))).map
        (fun l => { orderLineId := l.id, quantity := l.quantity - l.fulfilledQuantity,
                    sku := l.productVariant.sku, variantName := l.productVariant.name }) ∧
    ((getOutstandingFulfillmentLines wOrder).map (fun e => e.quantity)).sum = 2 :=
  ⟨(getOutstandingFulfillmentLines_spec wOrder (by decide)).1,
   (getOutstandingFulfillmentLines_spec wOrder (by decide)).2.trans (by decide)⟩

/-- C1: when the first fulfillment-creation attempt returns a structured error
whose `errorCode` matches `INVALID_FULFILLMENT_HANDLER` or whose `message`
matches `InvalidFulfillmentHandler` (case-insensitively), `createFulfillment`
issues exactly one retry identical to the first request except that the
handler code is replaced by `manual-fulfillment`, and returns the retry's
result; on any other structured error no retry occurs and a
`{success: false, message}` result carrying the original error is returned. -/
theorem createFulfillment_invalid_handler_retry
    (mutationNames : List String) (respond : Nat → FulfillmentUnion)
    (input : CreateFulfillmentInput) (typename : String) (code msg transitionErr : Option String)
    (hsupported : supportsCreateFulfillment mutationNames = true)
    (hfirst : respond 0 = .apiError typename code msg transitionErr) :
    (isInvalidHandlerError code msg = true →
      ∃ firstReq, createFulfillment mutationNames respond input =
        .ok (fulfillmentResultOf (respond 1),
             [firstReq, withHandlerCode firstReq "manual-fulfillment"])) ∧
    (isInvalidHandlerError code msg = false →
      ∃ firstReq, createFulfillment mutationNames respond input =
        .ok (.failure (joinedErrorMessage msg transitionErr), [firstReq])) := by
  have hmem : "createFulfillment" ∈ mutationNames ∨ "addFulfillmentToOrder" ∈ mutationNames := by
    simpa [supportsCreateFulfillment] using hsupported
  by_cases hm : "createFulfillment" ∈ mutationNames
  · refine ⟨fun hinv => ?_, fun hinv => ?_⟩
    · exact ⟨.createFulfillment input.orderId input.lines input.handlerCode input.method
        input.trackingCode, by simp [createFulfillment, hm, hfirst, hinv, withHandlerCode]⟩
    · exact ⟨.createFulfillment input.orderId input.lines input.handlerCode input.method
        input.trackingCode, by simp [createFulfillment, hm, hfirst, hinv]⟩
  · have hl : "addFulfillmentToOrder" ∈ mutationNames := hmem.resolve_left hm
    refine ⟨fun hinv => ?_, fun hinv => ?_⟩
    · exact ⟨.addFulfillmentToOrder input.lines input.handlerCode (legacyHandlerArguments input),
        by simp [createFulfillment, hm, hl, hfirst, hinv, withHandlerCode]⟩
    · exact ⟨.addFulfillmentToOrder input.lines input.handlerCode (legacyHandlerArguments input),
        by simp [createFulfillment, hm, hl, hfirst, hinv]⟩

/-- Witness for C1: a concrete invalid-handler error triggers the retry on the
modern shape, and a concrete unrelated error triggers no retry on the legacy
shape. -/
theorem createFulfillment_invalid_handler_retry_witness :
    (∃ firstReq, createFulfillment ["createFulfillment"] wRespondInvalid wInput =
      .ok (fulfillmentResultOf (wRespondInvalid 1),
           [firstReq, withHandlerCode firstReq "manual-fulfillment"])) ∧
    (∃ firstReq, createFulfillment ["addFulfillmentToOrder"] wRespondStock wInput =
      .ok (.failure (joinedErrorMessage (some "out of stock") (some "transition blocked")),
           [firstReq])) :=
  ⟨(createFulfillment_invalid_handler_retry ["createFulfillment"] wRespondInvalid wInput
      "CreateFulfillmentError" (some "INVALID_FULFILLMENT_HANDLER") (some "handler rejected") none
      (by decide) rfl).1 (by decide),
   (createFulfillment_invalid_handler_retry ["addFulfillmentToOrder"] wRespondStock wInput
      "InsufficientStockError" (some "INSUFFICIENT_STOCK_ERROR") (some "out of stock")
      (some "transition blocked") (by decide) rfl).2 (by decide)⟩

theorem orderStep_unsupported (vendureCreate : String → Except String CreateFulfillmentResult)
    (o : OrderSummary) (h : getOutstandingFulfillmentLines o ≠ []) :
    ApiFulfill.orderStep false false none vendureCreate o =
      .failed o.code "Vendure Admin API does not support createFulfillment" := by
  unfold ApiFulfill.orderStep
  simp [h]

/-- C8 (amended): when the capability probe shows neither `createFulfillment`
nor `addFulfillmentToOrder`, `VendureClient.createFulfillment` fails
immediately by throwing the unsupported-backend error; however the api batch
handler probes capability up front and handles an unsupported backend per
order — every order with outstanding lines becomes one failure entry and the
batch completes normally — so the condition is not terminal for the whole
Order System connection. -/
theorem unsupported_backend_spec
    (mutationNames : List String) (respond : Nat → FulfillmentUnion)
    (input : CreateFulfillmentInput)
    (hunsupported : supportsCreateFulfillment mutationNames = false) :
    createFulfillment mutationNames respond input =
      .error "Vendure Admin API does not support fulfillment mutations" ∧
    (∀ (vendureCreate : String → Except String CreateFulfillmentResult)
       (orders : List OrderSummary), orders ≠ [] →
      (∀ o ∈ orders, getOutstandingFulfillmentLines o ≠ []) →
      ApiFulfill.fulfillOrdersBatch (supportsCreateFulfillment mutationNames) false none
          vendureCreate orders =
        .completed 0 (orders.map
          (fun o => (o.code, "Vendure Admin API does not support createFulfillment")))) := by
  have hsplit : ¬ ("createFulfillment" ∈ mutationNames) ∧
      ¬ ("addFulfillmentToOrder" ∈ mutationNames) := by
    simpa [supportsCreateFulfillment, not_or] using hunsupported
  constructor
  · simp [createFulfillment, hsplit.1, hsplit.2]
  · intro vendureCreate orders hne hout
    rw [hunsupported]
    have main : ∀ (os : List OrderSummary), (∀ o ∈ os, getOutstandingFulfillmentLines o ≠ []) →
        (os.map (ApiFulfill.orderStep false false none vendureCreate)).countP
            (fun s => match s with | ApiFulfill.BatchStep.fulfilled => true | _ => false) = 0 ∧
        (os.map (ApiFulfill.orderStep false false none vendureCreate)).filterMap
            (fun s => match s with | ApiFulfill.BatchStep.failed c r => some (c, r) | _ => none) =
          os.map (fun o => (o.code, "Vendure Admin API does not support createFulfillment")) := by
      intro os
      induction os with
      | nil => intro _; simp
      | cons o rest ih =>
        intro hos
        have hstep := orderStep_unsupported vendureCreate o (hos o (by simp))
        have ihr := ih (fun x hx => hos x (by simp [hx]))
        simp [hstep, ihr.1, ihr.2, List.countP_cons]
    have hbatch : ApiFulfill.fulfillOrdersBatch false false none vendureCreate orders =
        ApiFulfill.BatchOutcome.completed
          ((orders.map (ApiFulfill.orderStep false false none vendureCreate)).countP
            (fun s => match s with | ApiFulfill.BatchStep.fulfilled => true | _ => false))
          ((orders.map (ApiFulfill.orderStep false false none vendureCreate)).filterMap
            (fun s => match s with
              | ApiFulfill.BatchStep.failed c r => some (c, r) | _ => none)) := by
      unfold ApiFulfill.fulfillOrdersBatch
      rw [if_neg (by simpa using hne)]
      rfl
    rw [hbatch, (main orders hout).1, (main orders hout).2]

/-- Witness for C8 at concrete values: an empty capability list and one order
with an outstanding line. -/
theorem unsupported_backend_spec_witness :
    createFulfillment [] wRespondInvalid wInput =
      .error "Vendure Admin API does not support fulfillment mutations" ∧
    ApiFulfill.fulfillOrdersBatch (supportsCreateFulfillment []) false none
        (fun _ => .error "unreachable") [wOrder] =
      .completed 0 [("ORD123", "Vendure Admin API does not support createFulfillment")] :=
  ⟨(unsupported_backend_spec [] wRespondInvalid wInput (by decide)).1,
   (unsupported_backend_spec [] wRespondInvalid wInput (by decide)).2
      (fun _ => .error "unreachable") [wOrder] (by decide) (by decide)⟩

/-- Counterexample for C8 as stated: with a backend exposing neither mutation,
the api batch handler does not fail terminally for the connection — it
completes normally, reporting one per-order failure entry for each of the two
orders in the batch. -/
theorem unsupported_backend_cex :
    ApiFulfill.fulfillOrdersBatch false false none (fun _ => .error "unreachable")
        [wOrder, wOrderB] =
      .completed 0 [("ORD123", "Vendure Admin API does not support createFulfillment"),
                    ("ORD124", "Vendure Admin API does not support createFulfillment")] := by
  decide

/-- C3 (amended): for a webhook event mapping to `Shipped` with shipment
details, the src handler (`handlePrintifyWebhook`) requests the tracking
update before the state transition; the api handler's
`transitionFulfillments`, however, requests the state transition first and the
tracking update second, and only when a tracking code is present. -/
theorem tracking_update_order_spec
    (evt : SrcWebhook.PrintifyWebhookEvent) (orderLookup : String → Option OrderSummary)
    (order : OrderSummary) (fulfillment : FulfillmentRecord)
    (shipment : SrcWebhook.PrintifyShipment)
    (hmap : SrcWebhook.mapEventToState evt = some "Shipped")
    (hid : jsTruthy evt.external_id = true)
    (hlook : orderLookup (evt.external_id.getD "") = some order)
    (hlast : order.fulfillments.getLast? = some fulfillment)
    (hship : evt.shipments.head? = some shipment)
    (htrack : (jsTruthy shipment.tracking_number || jsTruthy shipment.carrier) = true) :
    SrcWebhook.handleWebhookEvent false evt orderLookup =
      (⟨true, none⟩,
       [VendureMutation.updateFulfillmentTracking fulfillment.id shipment.tracking_number
          shipment.carrier,
        VendureMutation.transitionFulfillmentToState fulfillment.id "Shipped"]) ∧
    (∀ (order' : OrderSummary) (latest : FulfillmentRecord) (tracking : ApiWebhook.TrackingUpdate),
      order'.fulfillments.getLast? = some latest → jsTruthy tracking.code = true →
      ApiWebhook.transitionFulfillments order' "Shipped" (some tracking) =
        (some latest.id,
         [VendureMutation.transitionFulfillmentToState latest.id "Shipped",
          VendureMutation.updateFulfillmentTracking latest.id tracking.code tracking.carrier])) := by
  constructor
  · simp [SrcWebhook.handleWebhookEvent, hmap, hid, hlook, hlast, hship, htrack]
  · intro order' latest tracking hlast' hcode
    simp [ApiWebhook.transitionFulfillments, hlast', hcode]

/-- Witness for C3 at a concrete shipped event (`DHL` / `T1`) against an order
whose last fulfillment is `F-1`. -/
theorem tracking_update_order_spec_witness :
    SrcWebhook.handleWebhookEvent false wEvtShipped wLookup =
      (⟨true, none⟩,
       [VendureMutation.updateFulfillmentTracking "F-1" (some "T1") (some "DHL"),
        VendureMutation.transitionFulfillmentToState "F-1" "Shipped"]) ∧
    ApiWebhook.transitionFulfillments wShipOrder "Shipped" (some ⟨some "DHL", some "T1"⟩) =
      (some "F-1",
       [VendureMutation.transitionFulfillmentToState "F-1" "Shipped",
        VendureMutation.updateFulfillmentTracking "F-1" (some "T1") (some "DHL")]) :=
  ⟨(tracking_update_order_spec wEvtShipped wLookup wShipOrder wFulfillment wShipment
      (by decide) (by decide) (by decide) (by decide) (by decide) (by decide)).1,
   (tracking_update_order_spec wEvtShipped wLookup wShipOrder wFulfillment wShipment
      (by decide) (by decide) (by decide) (by decide) (by decide) (by decide)).2
     wShipOrder wFulfillment ⟨some "DHL", some "T1"⟩ (by decide) (by decide)⟩

/-- Counterexample for C3 as stated: for the shipped event with tracking data,
the api webhook handler requests the state transition *first* and the tracking
update only afterwards — the tracking update does not happen before the
transition. -/
theorem tracking_update_order_cex :
    ApiWebhook.processWebhook wPayloadShipped wLookup false =
      (.processed (some "F-1") false,
       [VendureMutation.transitionFulfillmentToState "F-1" "Shipped",
        VendureMutation.updateFulfillmentTracking "F-1" (some "T1") (some "DHL")]) := by
  decide

theorem transitionFulfillments_trace (order : OrderSummary) (targetState : String)
    (tracking : Option ApiWebhook.TrackingUpdate) (latest : FulfillmentRecord)
    (hlast : order.fulfillments.getLast? = some latest) :
    ∀ m ∈ (ApiWebhook.transitionFulfillments order targetState tracking).2,
      mutationFulfillmentId m = some latest.id := by
  intro m hm
  unfold ApiWebhook.transitionFulfillments at hm
  rw [hlast] at hm
  rcases List.mem_append.mp hm with h | h
  · simp at h
    subst h
    rfl
  · rcases tracking with _ | t
    · simp at h
    · by_cases hc : jsTruthy t.code = true
      · simp [hc] at h
        subst h
        rfl
      · simp [hc] at h

theorem transitionFulfillments_no_fulfillment (order : OrderSummary) (targetState : String)
    (tracking : Option ApiWebhook.TrackingUpdate)
    (hlast : order.fulfillments.getLast? = none) :
    ApiWebhook.transitionFulfillments order targetState tracking = (none, []) := by
  unfold ApiWebhook.transitionFulfillments
  rw [hlast]

/-- C6 (amended): both webhook handlers select the last element of the order's
fulfillment sequence as the transition target, and neither ever issues a
fulfillment-creation mutation; when the order has no fulfillment, the src
handler fails with a no-fulfillment error outcome, but the api handler
completes with a success outcome carrying a null fulfillment id and performs
no mutation. -/
theorem fulfillment_selection_spec :
    (∀ (evt : SrcWebhook.PrintifyWebhookEvent) (orderLookup : String → Option OrderSummary)
       (order : OrderSummary) (dryRun : Bool),
      jsTruthy evt.external_id = true →
      orderLookup (evt.external_id.getD "") = some order →
      order.fulfillments = [] →
      SrcWebhook.handleWebhookEvent dryRun evt orderLookup =
        (⟨false, some "No fulfillment found"⟩, [])) ∧
    (∀ (payload : ApiWebhook.WebhookPayload) (orderLookup : String → Option OrderSummary)
       (order : OrderSummary) (targetState : String) (bypass : Bool),
      payload.event ≠ "" →
      jsTruthy payload.external_id = true →
      ApiWebhook.PRINTIFY_EVENT_MAP.lookup payload.event = some targetState →
      orderLookup (payload.external_id.getD "") = some order →
      order.fulfillments = [] →
      ApiWebhook.processWebhook payload orderLookup bypass = (.processed none bypass, [])) ∧
    (∀ (evt : SrcWebhook.PrintifyWebhookEvent) (orderLookup : String → Option OrderSummary)
       (order : OrderSummary) (fulfillment : FulfillmentRecord) (dryRun : Bool),
      orderLookup (evt.external_id.getD "") = some order →
      order.fulfillments.getLast? = some fulfillment →
      ∀ m ∈ (SrcWebhook.handleWebhookEvent dryRun evt orderLookup).2,
        mutationFulfillmentId m = some fulfillment.id) ∧
    (∀ (order : OrderSummary) (targetState : String)
       (tracking : Option ApiWebhook.TrackingUpdate) (latest : FulfillmentRecord),
      order.fulfillments.getLast? = some latest →
      (ApiWebhook.transitionFulfillments order targetState tracking).1 = some latest.id ∧
      ∀ m ∈ (ApiWebhook.transitionFulfillments order targetState tracking).2,
        mutationFulfillmentId m = some latest.id) ∧
    (∀ (evt : SrcWebhook.PrintifyWebhookEvent) (orderLookup : String → Option OrderSummary)
       (dryRun : Bool) (orderId : String),
      VendureMutation.createFulfillmentRequest orderId ∉
        (SrcWebhook.handleWebhookEvent dryRun evt orderLookup).2) ∧
    (∀ (payload : ApiWebhook.WebhookPayload) (orderLookup : String → Option OrderSummary)
       (bypass : Bool) (orderId : String),
      VendureMutation.createFulfillmentRequest orderId ∉
        (ApiWebhook.processWebhook payload orderLookup bypass).2) := by
  refine ⟨?_, ?_, ?_, ?_, ?_, ?_⟩
  · intro evt orderLookup order dryRun hid hlook hempty
    simp [SrcWebhook.handleWebhookEvent, hid, hlook, hempty]
  · intro payload orderLookup order targetState bypass hev hid hmap hlook hempty
    simp [ApiWebhook.processWebhook, ApiWebhook.transitionFulfillments, hev, hid, hmap, hlook,
      hempty]
  · intro evt orderLookup order fulfillment dryRun hlook hlast m hm
    unfold SrcWebhook.handleWebhookEvent at hm
    repeat' split at hm
    all_goals
      rcases hms : SrcWebhook.mapEventToState evt with _ | st <;>
        try simp_all [mutationFulfillmentId]
    all_goals rcases hm with ⟨h1, rfl⟩ | rfl <;> rfl
  · intro order targetState tracking latest hlast'
    refine ⟨?_, transitionFulfillments_trace order targetState tracking latest hlast'⟩
    unfold ApiWebhook.transitionFulfillments
    rw [hlast']
  · intro evt orderLookup dryRun orderId hm
    unfold SrcWebhook.handleWebhookEvent at hm
    repeat' split at hm
    all_goals
      rcases hms : SrcWebhook.mapEventToState evt with _ | st <;> try simp_all
  · intro payload orderLookup bypass orderId hm
    unfold ApiWebhook.processWebhook at hm
    by_cases hev : (payload.event == "" || !(jsTruthy payload.external_id)) = true
    · rw [if_pos hev] at hm
      simp at hm
    · rw [if_neg hev] at hm
      rcases hl : ApiWebhook.PRINTIFY_EVENT_MAP.lookup payload.event with _ | ts
      · rw [hl] at hm
        simp at hm
      · rw [hl] at hm
        rcases ho : orderLookup (payload.external_id.getD "") with _ | order
        · rw [ho] at hm
          simp at hm
        · rw [ho] at hm
          simp only [] at hm
          rcases hlast : order.fulfillments.getLast? with _ | latest
          · rw [transitionFulfillments_no_fulfillment order ts _ hlast] at hm
            simp at hm
          · have := transitionFulfillments_trace order ts _ latest hlast _ hm
            simp [mutationFulfillmentId] at this

/-- Witness for C6 at concrete inputs: the no-fulfillment behaviours of both
handlers, the last-fulfillment selection, and the absence of any
fulfillment-creation mutation on a processed shipped event. -/
theorem fulfillment_selection_spec_witness :
    SrcWebhook.handleWebhookEvent false wEvtNoFulf wNoFulfLookup =
      (⟨false, some "No fulfillment found"⟩, []) ∧
    ApiWebhook.processWebhook wPayloadNoFulf wNoFulfLookup false = (.processed none false, []) ∧
    mutationFulfillmentId (VendureMutation.transitionFulfillmentToState "F-1" "Shipped") =
      some wFulfillment.id ∧
    (ApiWebhook.transitionFulfillments wShipOrder "Shipped" none).1 = some wFulfillment.id ∧
    VendureMutation.createFulfillmentRequest "O-1" ∉
      (SrcWebhook.handleWebhookEvent false wEvtShipped wLookup).2 ∧
    VendureMutation.createFulfillmentRequest "O-1" ∉
      (ApiWebhook.processWebhook wPayloadShipped wLookup false).2 :=
  ⟨fulfillment_selection_spec.1 wEvtNoFulf wNoFulfLookup wNoFulfOrder false
      (by decide) (by decide) (by decide),
   fulfillment_selection_spec.2.1 wPayloadNoFulf wNoFulfLookup wNoFulfOrder "Shipped" false
      (by decide) (by decide) (by decide) (by decide) (by decide),
   fulfillment_selection_spec.2.2.1 wEvtShipped wLookup wShipOrder wFulfillment false
      (by decide) (by decide) (VendureMutation.transitionFulfillmentToState "F-1" "Shipped")
      (by decide),
   (fulfillment_selection_spec.2.2.2.1 wShipOrder "Shipped" none wFulfillment (by decide)).1,
   fulfillment_selection_spec.2.2.2.2.1 wEvtShipped wLookup false "O-1",
   fulfillment_selection_spec.2.2.2.2.2 wPayloadShipped wLookup false "O-1"⟩

/-- Counterexample for C6 as stated: for a shipped event whose order has no
fulfillments, the api webhook handler does not report a no-fulfillment error —
it completes with the 200 success outcome (null fulfillment id) and performs
no mutation. -/
theorem fulfillment_selection_cex :
    ApiWebhook.processWebhook ⟨"order:shipment:created", some "ORD9", []⟩ wNoFulfLookup false =
      (.processed none false, []) := by
  decide

/-- C7 (amended): for an event that maps to no recognized target state, the
api handler returns `{ignored: true}` without attempting any mutation; the src
handler also attempts no mutation, but proceeds to look the order up,
returning `{ok: true}` when the order and a fulfillment exist — and an error
outcome otherwise — rather than an ignored outcome. -/
theorem unrecognized_event_spec :
    (∀ (payload : ApiWebhook.WebhookPayload) (orderLookup : String → Option OrderSummary)
       (bypass : Bool),
      payload.event ≠ "" → jsTruthy payload.external_id = true →
      ApiWebhook.PRINTIFY_EVENT_MAP.lookup payload.event = none →
      ApiWebhook.processWebhook payload orderLookup bypass = (.ignored, [])) ∧
    (∀ (evt : SrcWebhook.PrintifyWebhookEvent) (orderLookup : String → Option OrderSummary)
       (dryRun : Bool),
      SrcWebhook.mapEventToState evt = none →
      (SrcWebhook.handleWebhookEvent dryRun evt orderLookup).2 = []) ∧
    (∀ (evt : SrcWebhook.PrintifyWebhookEvent) (orderLookup : String → Option OrderSummary)
       (order : OrderSummary) (fulfillment : FulfillmentRecord),
      SrcWebhook.mapEventToState evt = none →
      jsTruthy evt.external_id = true →
      orderLookup (evt.external_id.getD "") = some order →
      order.fulfillments.getLast? = some fulfillment →
      SrcWebhook.handleWebhookEvent false evt orderLookup = (⟨true, none⟩, [])) := by
  refine ⟨?_, ?_, ?_⟩
  · intro payload orderLookup bypass hev hid hmap
    simp [ApiWebhook.processWebhook, hev, hid, hmap]
  · intro evt orderLookup dryRun hmap
    unfold SrcWebhook.handleWebhookEvent
    repeat' split
    all_goals simp_all [hmap]
  · intro evt orderLookup order fulfillment hmap hid hlook hlast
    simp [SrcWebhook.handleWebhookEvent, hmap, hid, hlook, hlast]

/-- Witness for C7 at concrete inputs: the unrecognized event `order:created`
against the api handler (ignored) and against the src handler with a found
order (plain ok, no mutation). -/
theorem unrecognized_event_spec_witness :
    ApiWebhook.processWebhook ⟨"order:created", some "ORD123", []⟩ wLookup false =
      (.ignored, []) ∧
    (SrcWebhook.handleWebhookEvent false wEvtUnknownOrd123 wLookup).2 = [] ∧
    SrcWebhook.handleWebhookEvent false wEvtUnknownOrd123 wLookup = (⟨true, none⟩, []) :=
  ⟨unrecognized_event_spec.1 ⟨"order:created", some "ORD123", []⟩ wLookup false
      (by decide) (by decide) (by decide),
   unrecognized_event_spec.2.1 wEvtUnknownOrd123 wLookup false (by decide),
   unrecognized_event_spec.2.2 wEvtUnknownOrd123 wLookup wShipOrder wFulfillment
      (by decide) (by decide) (by decide) (by decide)⟩

/-- Counterexample for C7 as stated: the src webhook handler, given an
unrecognized event value whose order cannot be found, returns an error outcome
(`Order not found`), not `{ignored: true}`. -/
theorem unrecognized_event_cex :
    SrcWebhook.handleWebhookEvent false wEvtUnknown (fun _ => none) =
      (⟨false, some "Order not found"⟩, []) := by
  decide

theorem buildItemsGo_ok_iff (mapping : List (String × PrintifyMapEntry))
    (ls : List OutstandingLine) :
    (∃ items, SrcFulfill.buildItemsGo mapping ls = .ok items) ↔
      ∀ l ∈ ls, SrcFulfill.skuKey l ≠ "" ∧
        (mapping.lookup (SrcFulfill.skuKey l)).isSome = true := by
  induction ls with
  | nil => simp [SrcFulfill.buildItemsGo]
  | cons l rest ih =>
    constructor
    · rintro ⟨items, hitems⟩
      unfold SrcFulfill.buildItemsGo at hitems
      rcases hif : (if SrcFulfill.skuKey l != "" then mapping.lookup (SrcFulfill.skuKey l)
          else none) with _ | m
      · rw [hif] at hitems
        simp at hitems
      · rw [hif] at hitems
        intro x hx
        rcases List.mem_cons.mp hx with rfl | hx'
        · by_cases hk : SrcFulfill.skuKey x != ""
          · rw [if_pos hk] at hif
            exact ⟨by simpa using hk, by simp [hif]⟩
          · rw [if_neg hk] at hif
            cases hif
        · cases hgo : SrcFulfill.buildItemsGo mapping rest with
          | error e =>
            rw [hgo] at hitems
            simp [Bind.bind, Except.bind] at hitems
          | ok items' => exact (ih.mp ⟨items', hgo⟩) x hx'
    · intro hall
      have hl := hall l (by simp)
      rcases ih.mpr (fun x hx => hall x (by simp [hx])) with ⟨items', hitems'⟩
      have hk : (SrcFulfill.skuKey l != "") = true := by simpa using hl.1
      rcases hsome : mapping.lookup (SrcFulfill.skuKey l) with _ | m
      · rw [hsome] at hl
        simp at hl
      · refine ⟨(⟨m.productId, m.variantId, l.quantity⟩ : SrcFulfill.PrintifyLineItemInput)
          :: items', ?_⟩
        unfold SrcFulfill.buildItemsGo
        rw [if_pos hk, hsome, hitems']
        rfl

theorem buildItemsGo_forall2 (mapping : List (String × PrintifyMapEntry)) :
    ∀ (ls : List OutstandingLine) (items : List SrcFulfill.PrintifyLineItemInput),
      SrcFulfill.buildItemsGo mapping ls = .ok items →
      List.Forall₂ (fun (l : OutstandingLine) (item : SrcFulfill.PrintifyLineItemInput) =>
        item.quantity = l.quantity ∧
        mapping.lookup (SrcFulfill.skuKey l) = some ⟨item.productId, item.variantId⟩) ls items := by
  intro ls
  induction ls with
  | nil =>
    intro items h
    simp [SrcFulfill.buildItemsGo] at h
    subst h
    exact List.Forall₂.nil
  | cons l rest ih =>
    intro items h
    unfold SrcFulfill.buildItemsGo at h
    rcases hif : (if SrcFulfill.skuKey l != "" then mapping.lookup (SrcFulfill.skuKey l)
        else none) with _ | m
    · rw [hif] at h
      simp at h
    · rw [hif] at h
      cases hgo : SrcFulfill.buildItemsGo mapping rest with
      | error e =>
        rw [hgo] at h
        simp [Bind.bind, Except.bind] at h
      | ok items' =>
        rw [hgo] at h
        simp [Bind.bind, Except.bind] at h
        subst h
        refine List.Forall₂.cons ⟨rfl, ?_⟩ (ih items' hgo)
        by_cases hk : SrcFulfill.skuKey l != ""
        · rw [if_pos hk] at hif
          rw [hif]
        · rw [if_neg hk] at hif
          cases hif

theorem apiBuildItems_ok_iff (mapping : List (String × PrintifyMapEntry))
    (ls : List OutstandingLine) :
    (∃ items, ApiFulfill.buildItemsGo mapping ls = .ok items) ↔
      ∀ l ∈ ls, (mapping.lookup (l.sku.getD "")).isSome = true := by
  induction ls with
  | nil => simp [ApiFulfill.buildItemsGo]
  | cons l rest ih =>
    constructor
    · rintro ⟨items, hitems⟩
      unfold ApiFulfill.buildItemsGo at hitems
      rcases hsome : mapping.lookup (l.sku.getD "") with _ | m
      · rw [hsome] at hitems
        simp at hitems
      · rw [hsome] at hitems
        intro x hx
        rcases List.mem_cons.mp hx with rfl | hx'
        · simp [hsome]
        · cases hgo : ApiFulfill.buildItemsGo mapping rest with
          | error e =>
            rw [hgo] at hitems
            simp [Bind.bind, Except.bind] at hitems
          | ok items' => exact (ih.mp ⟨items', hgo⟩) x hx'
    · intro hall
      have hl := hall l (by simp)
      rcases ih.mpr (fun x hx => hall x (by simp [hx])) with ⟨items', hitems'⟩
      rcases hsome : mapping.lookup (l.sku.getD "") with _ | m
      · rw [hsome] at hl
        simp at hl
      · refine ⟨(⟨m.productId, m.variantId, l.quantity,
          ⟨l.orderLineId, l.sku.getD "", l.variantName⟩⟩ : ApiFulfill.PrintifyLineItemInput)
          :: items', ?_⟩
        unfold ApiFulfill.buildItemsGo
        rw [hsome, hitems']
        rfl

theorem apiBuildItems_forall2 (mapping : List (String × PrintifyMapEntry)) :
    ∀ (ls : List OutstandingLine) (items : List ApiFulfill.PrintifyLineItemInput),
      ApiFulfill.buildItemsGo mapping ls = .ok items →
      List.Forall₂ (fun (l : OutstandingLine) (item : ApiFulfill.PrintifyLineItemInput) =>
        item.quantity = l.quantity ∧ item.metadata.vendureOrderLineId = l.orderLineId ∧
        mapping.lookup (l.sku.getD "") = some ⟨item.productId, item.variantId⟩) ls items := by
  intro ls
  induction ls with
  | nil =>
    intro items h
    simp [ApiFulfill.buildItemsGo] at h
    subst h
    exact List.Forall₂.nil
  | cons l rest ih =>
    intro items h
    unfold ApiFulfill.buildItemsGo at h
    rcases hsome : mapping.lookup (l.sku.getD "") with _ | m
    · rw [hsome] at h
      simp at h
    · rw [hsome] at h
      cases hgo : ApiFulfill.buildItemsGo mapping rest with
      | error e =>
        rw [hgo] at h
        simp [Bind.bind, Except.bind] at h
      | ok items' =>
        rw [hgo] at h
        simp [Bind.bind, Except.bind] at h
        subst h
        exact List.Forall₂.cons ⟨rfl, rfl, by rw [hsome]⟩ (ih items' hgo)

/-- C4 (amended): the src builder's lookup key is the SKU falling back to the
variant display name, and it fails iff some outstanding line's key is empty or
absent from the mapping table; the api builder's lookup key is the SKU falling
back to the *empty string* (not the variant name), and it fails iff that key
is absent from the mapping table.  On success, each builder turns every
outstanding line into exactly one partner line item, in order, carrying the
mapped product/variant ids and the line's outstanding quantity. -/
theorem buildPrintifyLineItems_mapping_spec :
    (∀ (order : OrderSummary) (mapping : List (String × PrintifyMapEntry)),
      (∃ items, SrcFulfill.buildPrintifyLineItems order mapping = .ok items) ↔
        ∀ l ∈ getOutstandingFulfillmentLines order,
          SrcFulfill.skuKey l ≠ "" ∧ (mapping.lookup (SrcFulfill.skuKey l)).isSome = true) ∧
    (∀ (order : OrderSummary) (mapping : List (String × PrintifyMapEntry))
       (items : List SrcFulfill.PrintifyLineItemInput),
      SrcFulfill.buildPrintifyLineItems order mapping = .ok items →
      List.Forall₂ (fun (l : OutstandingLine) (item : SrcFulfill.PrintifyLineItemInput) =>
          item.quantity = l.quantity ∧
          mapping.lookup (SrcFulfill.skuKey l) = some ⟨item.productId, item.variantId⟩)
        (getOutstandingFulfillmentLines order) items) ∧
    (∀ (outstanding : List OutstandingLine) (mapping : List (String × PrintifyMapEntry)),
      (∃ items, ApiFulfill.buildPrintifyLineItems outstanding mapping = .ok items) ↔
        ∀ l ∈ outstanding, (mapping.lookup (l.sku.getD "")).isSome = true) ∧
    (∀ (outstanding : List OutstandingLine) (mapping : List (String × PrintifyMapEntry))
       (items : List ApiFulfill.PrintifyLineItemInput),
      ApiFulfill.buildPrintifyLineItems outstanding mapping = .ok items →
      List.Forall₂ (fun (l : OutstandingLine) (item : ApiFulfill.PrintifyLineItemInput) =>
          item.quantity = l.quantity ∧ item.metadata.vendureOrderLineId = l.orderLineId ∧
          mapping.lookup (l.sku.getD "") = some ⟨item.productId, item.variantId⟩)
        outstanding items) :=
  ⟨fun order mapping => buildItemsGo_ok_iff mapping (getOutstandingFulfillmentLines order),
   fun _order mapping items h => buildItemsGo_forall2 mapping _ items h,
   fun outstanding mapping => apiBuildItems_ok_iff mapping outstanding,
   fun outstanding mapping items h => apiBuildItems_forall2 mapping outstanding items h⟩

/-- Witness for C4 at concrete inputs: both builders succeed on a mapped
outstanding line and produce the mapped ids with the outstanding quantity. -/
theorem buildPrintifyLineItems_mapping_spec_witness :
    (∃ items, SrcFulfill.buildPrintifyLineItems wOrder [("SKU-1", ⟨5, 6⟩)] = .ok items) ∧
    List.Forall₂ (fun (l : OutstandingLine) (item : SrcFulfill.PrintifyLineItemInput) =>
        item.quantity = l.quantity ∧
        ([("SKU-1", (⟨5, 6⟩ : PrintifyMapEntry))].lookup (SrcFulfill.skuKey l) =
          some ⟨item.productId, item.variantId⟩))
      (getOutstandingFulfillmentLines wOrder) [⟨5, 6, 2⟩] ∧
    (∃ items, ApiFulfill.buildPrintifyLineItems [⟨"L-1", 2, some "SKU-1", "V"⟩]
        [("SKU-1", ⟨5, 6⟩)] = .ok items) ∧
    List.Forall₂ (fun (l : OutstandingLine) (item : ApiFulfill.PrintifyLineItemInput) =>
        item.quantity = l.quantity ∧ item.metadata.vendureOrderLineId = l.orderLineId ∧
        ([("SKU-1", (⟨5, 6⟩ : PrintifyMapEntry))].lookup (l.sku.getD "") =
          some ⟨item.productId, item.variantId⟩))
      [⟨"L-1", 2, some "SKU-1", "V"⟩] [⟨5, 6, 2, ⟨"L-1", "SKU-1", "V"⟩⟩] :=
  ⟨(buildPrintifyLineItems_mapping_spec.1 wOrder [("SKU-1", ⟨5, 6⟩)]).mpr (by decide),
   buildPrintifyLineItems_mapping_spec.2.1 wOrder [("SKU-1", ⟨5, 6⟩)] [⟨5, 6, 2⟩] rfl,
   (buildPrintifyLineItems_mapping_spec.2.2.1 [⟨"L-1", 2, some "SKU-1", "V"⟩]
      [("SKU-1", ⟨5, 6⟩)]).mpr (by decide),
   buildPrintifyLineItems_mapping_spec.2.2.2 [⟨"L-1", 2, some "SKU-1", "V"⟩]
      [("SKU-1", ⟨5, 6⟩)] [⟨5, 6, 2, ⟨"L-1", "SKU-1", "V"⟩⟩] rfl⟩

/-- Counterexample for C4 as stated: for an outstanding line with no SKU whose
variant display name `X` *is* a key of the mapping table, the api builder
still fails — its fallback key is the empty string, not the variant name. -/
theorem buildPrintifyLineItems_mapping_cex :
    (wMapping.lookup (wLineNoSku.sku.getD wLineNoSku.variantName)).isSome = true ∧
    ApiFulfill.buildPrintifyLineItems [wLineNoSku] wMapping =
      .error "Missing PRINTIFY_PRODUCT_MAPPING entry for SKU \"\"" :=
  ⟨by decide, rfl⟩

/-- C9 (amended): when the customer email is absent, the src request builder
uses the placeholder `unknown@example.com` (also when the email is the empty
string, via JS `||`), while the api request builder uses the placeholder
`no-reply@example.com`. -/
theorem missing_email_placeholder_spec :
    (∀ order : OrderSummary, (order.customer.bind (fun c => c.emailAddress)).getD "" = "" →
      (SrcFulfill.addressTo order).email = "unknown@example.com") ∧
    (∀ (order : OrderSummary) (address : ShippingAddress),
      order.customer.bind (fun c => c.emailAddress) = none →
      (ApiFulfill.addressTo order address).email = "no-reply@example.com") := by
  constructor
  · intro order h
    rcases hmail : order.customer.bind (fun c => c.emailAddress) with _ | e
    · simp [SrcFulfill.addressTo, jsOr, hmail]
    · have he : e = "" := by
        rw [hmail] at h
        simpa using h
      simp [SrcFulfill.addressTo, jsOr, hmail, he]
  · intro order address h
    simp [ApiFulfill.addressTo, h]

/-- Witness for C9 at a concrete order with no customer record. -/
theorem missing_email_placeholder_spec_witness :
    (SrcFulfill.addressTo wNoFulfOrder).email = "unknown@example.com" ∧
    (ApiFulfill.addressTo wNoFulfOrder wAddrEmpty).email = "no-reply@example.com" :=
  ⟨missing_email_placeholder_spec.1 wNoFulfOrder rfl,
   missing_email_placeholder_spec.2 wNoFulfOrder wAddrEmpty rfl⟩

/-- Counterexample for C9 as stated: for an order with no customer email, the
api request builder sets the email field to `no-reply@example.com`, not the
documented placeholder `unknown@example.com`. -/
theorem missing_email_placeholder_cex :
    (ApiFulfill.addressTo wNoFulfOrder wAddrEmpty).email = "no-reply@example.com" ∧
    (ApiFulfill.addressTo wNoFulfOrder wAddrEmpty).email ≠ "unknown@example.com" := by
  constructor
  · rfl
  · decide

/-- C10: in the src webhook handler, `verifySignature` returns `true` whenever
the supplied signature is missing or empty, or the raw body is empty —
regardless of the configured secret — and the handler, given a request with no
signature header, therefore proceeds to full event processing. -/
theorem unsigned_webhook_accepted :
    (∀ (secret bodyRaw signature : Option String), (signature.getD "") = "" →
      SrcWebhook.verifySignature secret bodyRaw signature = true) ∧
    (∀ (secret bodyRaw signature : Option String), (bodyRaw.getD "") = "" →
      SrcWebhook.verifySignature secret bodyRaw signature = true) ∧
    (∀ (webhookSecret : Option String) (dryRun : Bool) (bodyRaw : String)
       (evt : SrcWebhook.PrintifyWebhookEvent) (orderLookup : String → Option OrderSummary),
      SrcWebhook.handlePrintifyWebhook webhookSecret dryRun bodyRaw none evt orderLookup =
        SrcWebhook.handleWebhookEvent dryRun evt orderLookup) := by
  refine ⟨?_, ?_, ?_⟩
  · intro secret bodyRaw signature h
    have hf : jsTruthy signature = false := by simp [jsTruthy, h]
    simp [SrcWebhook.verifySignature, hf]
  · intro secret bodyRaw signature h
    have hf : jsTruthy bodyRaw = false := by simp [jsTruthy, h]
    simp [SrcWebhook.verifySignature, hf]
  · intro webhookSecret dryRun bodyRaw evt orderLookup
    have hsig : SrcWebhook.verifySignature webhookSecret (some bodyRaw) (some (jsOr none "")) =
        true := by
      simp [SrcWebhook.verifySignature, jsOr, jsTruthy]
    simp [SrcWebhook.handlePrintifyWebhook, hsig]

/-- Witness for C10: a configured secret with an empty signature or empty body
passes, and the handler with no signature header proceeds to processing. -/
theorem unsigned_webhook_accepted_witness :
    SrcWebhook.verifySignature (some "configured-secret") (some "payload-body") (some "") = true ∧
    SrcWebhook.verifySignature (some "configured-secret") (some "") (some "sig") = true ∧
    SrcWebhook.handlePrintifyWebhook (some "configured-secret") false "payload-body" none
        wEvtShipped wLookup =
      SrcWebhook.handleWebhookEvent false wEvtShipped wLookup :=
  ⟨unsigned_webhook_accepted.1 (some "configured-secret") (some "payload-body") (some "") rfl,
   unsigned_webhook_accepted.2.1 (some "configured-secret") (some "") (some "sig") rfl,
   unsigned_webhook_accepted.2.2 (some "configured-secret") false "payload-body" wEvtShipped
     wLookup⟩

theorem hexVal_hexDigitChar (n : Nat) (h : n < 16) : hexVal (hexDigitChar n) = some n := by
  interval_cases n <;> rfl

theorem hexDecodeChars_encode (bs : List Nat) (h : ∀ b ∈ bs, b < 256) :
    hexDecodeChars
      (bs.foldr (fun b acc => hexDigitChar (b / 16) :: hexDigitChar (b % 16) :: acc) []) = bs := by
  induction bs with
  | nil => rfl
  | cons b rest ih =>
    have hb : b < 256 := h b (by simp)
    have h1 := hexVal_hexDigitChar (b / 16) (by omega)
    have h2 := hexVal_hexDigitChar (b % 16) (by omega)
    have hr := ih (fun x hx => h x (by simp [hx]))
    simp only [List.foldr_cons, hexDecodeChars, h1, h2, hr]
    congr 1
    omega

theorem hexDecode_bytesToHex (bs : List Nat) (h : ∀ b ∈ bs, b < 256) :
    hexDecode (bytesToHex bs) = bs := by
  simpa [hexDecode, bytesToHex] using hexDecodeChars_encode bs h

theorem wordBytes_lt (w : Nat) : ∀ b ∈ wordBytes w, b < 256 := by
  intro b hb
  simp [wordBytes] at hb
  rcases hb with rfl | rfl | rfl | rfl <;> omega

theorem sha256_lt (msg : List Nat) : ∀ b ∈ sha256 msg, b < 256 := by
  intro b hb
  simp [sha256, sha256StateBytes, wordBytes] at hb
  omega

theorem sha256_length (msg : List Nat) : (sha256 msg).length = 32 := by
  simp [sha256, sha256StateBytes, wordBytes]

theorem hmacSha256_lt (key msg : List Nat) : ∀ b ∈ hmacSha256 key msg, b < 256 := by
  unfold hmacSha256
  exact sha256_lt _

theorem hmacSha256_length (key msg : List Nat) : (hmacSha256 key msg).length = 32 := by
  unfold hmacSha256
  exact sha256_length _

theorem hexDecode_hmacHex (secret body : String) :
    hexDecode (hmacSha256Hex secret body) = hmacSha256 (strBytes secret) (strBytes body) :=
  hexDecode_bytesToHex _ (hmacSha256_lt _ _)

theorem hmacSha256Hex_ne_empty (secret body : String) : hmacSha256Hex secret body ≠ "" := by
  intro hcontra
  have h32 : (hexDecode (hmacSha256Hex secret body)).length = 32 := by
    rw [hexDecode_hmacHex]
    exact hmacSha256_length _ _
  rw [hcontra] at h32
  simp [hexDecode, hexDecodeChars] at h32

/-- C5 (amended): with a configured secret and a nonempty signature, the api
handler's verification passes exactly when the signature *hex-decodes* to the
32 digest bytes of HMAC-SHA256(secret, body) — in particular it passes for the
lowercase hex digest itself, but also for its uppercase form — returns false
when the signature decodes to 32 different bytes, and throws a `RangeError`
when it decodes to any other byte count; with no configured secret
verification passes trivially; and a matching bypass secret skips signature
verification entirely. -/
theorem verifySignature_spec (body secret sig : String)
    (hsecret : secret ≠ "") (hsig : sig ≠ "") :
    (ApiWebhook.verifySignature body (some secret) (some sig) =
      if (hexDecode sig).length = 32
      then .ok (hmacSha256 (strBytes secret) (strBytes body) == hexDecode sig)
      else .error "RangeError: Input buffers must have the same byte length") ∧
    (sig = hmacSha256Hex secret body →
      ApiWebhook.verifySignature body (some secret) (some sig) = .ok true) ∧
    (∀ (b : String) (s : Option String), ApiWebhook.verifySignature b none s = .ok true) ∧
    (∀ (rawBody : String) (webhookSecret jobSecret signatureHeader bypassHeader : Option String),
      ApiWebhook.hasBypass jobSecret bypassHeader = true →
      ApiWebhook.authorizeRequest rawBody webhookSecret jobSecret signatureHeader bypassHeader =
        .ok true) := by
  have hmain : ApiWebhook.verifySignature body (some secret) (some sig) =
      if (hexDecode sig).length = 32
      then .ok (hmacSha256 (strBytes secret) (strBytes body) == hexDecode sig)
      else .error "RangeError: Input buffers must have the same byte length" := by
    have hchar : ApiWebhook.verifySignature body (some secret) (some sig) =
        timingSafeEqual (hexDecode (hmacSha256Hex secret body)) (hexDecode sig) := by
      simp [ApiWebhook.verifySignature, jsTruthy, hsecret, hsig]
    rw [hchar]
    unfold timingSafeEqual
    rw [hexDecode_hmacHex]
    rw [hmacSha256_length]
    by_cases hlen : (hexDecode sig).length = 32
    · rw [if_pos hlen.symm, if_pos hlen]
    · rw [if_neg (fun hcontra => hlen hcontra.symm), if_neg hlen]
  refine ⟨hmain, ?_, ?_, ?_⟩
  · intro heq
    rw [hmain, heq]
    rw [if_pos (by rw [hexDecode_hmacHex]; exact hmacSha256_length _ _)]
    rw [hexDecode_hmacHex]
    simp
  · intro b s
    rfl
  · intro rawBody webhookSecret jobSecret signatureHeader bypassHeader h
    simp [ApiWebhook.authorizeRequest, h]

/-- Witness for C5: the exact lowercase digest passes; verification is trivial
with no secret; a matching bypass secret authorizes without signature
verification. -/
theorem verifySignature_spec_witness :
    ApiWebhook.verifySignature "body" (some "secret")
        (some (hmacSha256Hex "secret" "body")) = .ok true ∧
    ApiWebhook.verifySignature "anything" none (some "whatever") = .ok true ∧
    ApiWebhook.authorizeRequest "raw" (some "whsec") (some "jobsec") none (some "jobsec") =
      .ok true :=
  ⟨(verifySignature_spec "body" "secret" (hmacSha256Hex "secret" "body") (by decide)
      (hmacSha256Hex_ne_empty "secret" "body")).2.1 rfl,
   (verifySignature_spec "b" "s" "00" (by decide) (by decide)).2.2.1 "anything" (some "whatever"),
   (verifySignature_spec "b" "s" "00" (by decide) (by decide)).2.2.2 "raw" (some "whsec")
     (some "jobsec") none (some "jobsec") (by decide)⟩

/-- Counterexample for C5 as stated: the uppercase form of the hex digest is a
different signature value than the hex HMAC, yet verification passes, because
the comparison is over hex-decoded bytes. -/
theorem verifySignature_cex :
    "DC46983557FEA127B43AF721467EB9B3FDE2338FE3E14F51952AA8478C13D355" ≠
      hmacSha256Hex "secret" "body" ∧
    ApiWebhook.verifySignature "body" (some "secret")
        (some "DC46983557FEA127B43AF721467EB9B3FDE2338FE3E14F51952AA8478C13D355") =
      .ok true := by
  constructor
  · decide
  · rfl

end TonyStore
